import Mathlib

/-!
Shallow embedding of the gRPC Python server call-lifecycle engine
(`src/third_party/grpc/src/python/grpcio/grpc/_server.py`) and proofs about
its per-call state machine: status scheduling, call retirement, admission
control, and the servicer-context surface.

Conventions of the embedding:
* Python byte strings and unicode strings are both modelled as `String`
  (`_common.encode` is the identity under this identification).
* A Python `set` of operation tags is a `Finset String`.
* Starting a `start_server_batch` call is modelled by returning the batch
  that was started (`Option Batch`): `none` means no batch was started.
* Raising an exception is modelled with an explicit outcome value.
-/

namespace GrpcServer

/-- Client stream condition of one call: the module constants
`_OPEN`, `_CLOSED`, `_CANCELLED`. -/
inductive ClientStatus
  | OPEN
  | CLOSED
  | CANCELLED
deriving DecidableEq, Repr

/-- Application-level status codes (`grpc.StatusCode`). -/
inductive StatusCode
  | OK
  | CANCELLED
  | UNKNOWN
  | INVALID_ARGUMENT
  | DEADLINE_EXCEEDED
  | NOT_FOUND
  | ALREADY_EXISTS
  | PERMISSION_DENIED
  | UNAUTHENTICATED
  | RESOURCE_EXHAUSTED
  | FAILED_PRECONDITION
  | ABORTED
  | OUT_OF_RANGE
  | UNIMPLEMENTED
  | INTERNAL
  | UNAVAILABLE
  | DATA_LOSS
deriving DecidableEq, Repr

/-- Cython-layer status codes (`cygrpc.StatusCode`). -/
inductive CyStatusCode
  | ok
  | cancelled
  | unknown
  | invalid_argument
  | deadline_exceeded
  | not_found
  | already_exists
  | permission_denied
  | unauthenticated
  | resource_exhausted
  | failed_precondition
  | aborted
  | out_of_range
  | unimplemented
  | internal
  | unavailable
  | data_loss
deriving DecidableEq, Repr

/-- Modelled from the spec: `grpc._common.STATUS_CODE_TO_CYGRPC_STATUS_CODE`
(the module `_common.py` is not under `src/`). The spec speaks of one
status-code taxonomy (OK, UNKNOWN, INTERNAL, UNIMPLEMENTED,
RESOURCE_EXHAUSTED, ...), so the dictionary is the evident total embedding of
the application codes into the cython codes. -/
def STATUS_CODE_TO_CYGRPC_STATUS_CODE : StatusCode → Option CyStatusCode
  | StatusCode.OK => some CyStatusCode.ok
  | StatusCode.CANCELLED => some CyStatusCode.cancelled
  | StatusCode.UNKNOWN => some CyStatusCode.unknown
  | StatusCode.INVALID_ARGUMENT => some CyStatusCode.invalid_argument
  | StatusCode.DEADLINE_EXCEEDED => some CyStatusCode.deadline_exceeded
  | StatusCode.NOT_FOUND => some CyStatusCode.not_found
  | StatusCode.ALREADY_EXISTS => some CyStatusCode.already_exists
  | StatusCode.PERMISSION_DENIED => some CyStatusCode.permission_denied
  | StatusCode.UNAUTHENTICATED => some CyStatusCode.unauthenticated
  | StatusCode.RESOURCE_EXHAUSTED => some CyStatusCode.resource_exhausted
  | StatusCode.FAILED_PRECONDITION => some CyStatusCode.failed_precondition
  | StatusCode.ABORTED => some CyStatusCode.aborted
  | StatusCode.OUT_OF_RANGE => some CyStatusCode.out_of_range
  | StatusCode.UNIMPLEMENTED => some CyStatusCode.unimplemented
  | StatusCode.INTERNAL => some CyStatusCode.internal
  | StatusCode.UNAVAILABLE => some CyStatusCode.unavailable
  | StatusCode.DATA_LOSS => some CyStatusCode.data_loss

/-- Metadata is an opaque list of key-value pairs. -/
abbrev Metadata : Type := List (String × String)

/-- Operation-batch tags used as members of `state.due` (`_server.py` lines
33-41). -/
def _RECEIVE_CLOSE_ON_SERVER_TOKEN : String := "receive_close_on_server"

def _SEND_INITIAL_METADATA_TOKEN : String := "send_initial_metadata"

def _RECEIVE_MESSAGE_TOKEN : String := "receive_message"

def _SEND_MESSAGE_TOKEN : String := "send_message"

def _SEND_INITIAL_METADATA_AND_SEND_MESSAGE_TOKEN : String :=
  "send_initial_metadata * send_message"

def _SEND_STATUS_FROM_SERVER_TOKEN : String := "send_status_from_server"

def _SEND_INITIAL_METADATA_AND_SEND_STATUS_FROM_SERVER_TOKEN : String :=
  "send_initial_metadata * send_status_from_server"

/-- One operation inside a `start_server_batch` call (the `cygrpc`
operation constructors used by `_server.py`). -/
inductive Operation
  | SendInitialMetadataOperation (initial_metadata : Option Metadata)
  | SendMessageOperation (payload : String)
  | SendStatusFromServerOperation (trailing_metadata : Option Metadata)
      (code : CyStatusCode) (details : String)
  | ReceiveMessageOperation
  | ReceiveCloseOnServerOperation
deriving DecidableEq

/-- A started server batch: its operations plus the tag under which its
completion will be reported. -/
structure Batch where
  operations : List Operation
  token : String
deriving DecidableEq

/-- Whether an operation is a terminal-status send. -/
def Operation.isStatusOp : Operation → Bool
  | Operation.SendStatusFromServerOperation _ _ _ => true
  | _ => false

/-- Whether a started batch carries a terminal-status send. -/
def Batch.sendsStatus (b : Batch) : Bool :=
  b.operations.any Operation.isStatusOp

/-- The code of the first terminal-status operation in a batch, if any. -/
def Batch.statusCode (b : Batch) : Option CyStatusCode :=
  b.operations.findSome? fun op =>
    match op with
    | Operation.SendStatusFromServerOperation _ code _ => some code
    | _ => none

/-- The details of the first terminal-status operation in a batch, if any. -/
def Batch.statusDetails (b : Batch) : Option String :=
  b.operations.findSome? fun op =>
    match op with
    | Operation.SendStatusFromServerOperation _ _ details => some details
    | _ => none

/-- Per-call mutable record `_RPCState` (lines 86-100). The condition
variable and the call handle are synchronization/transport artifacts with no
data content, so they are not fields of the model; `rpc_errors` keeps only
the count of raised `RpcError`s and `abortion` whether the sentinel exception
object has been created. -/
structure RPCState where
  due : Finset String
  request : Option String
  client : ClientStatus
  initial_metadata_allowed : Bool
  disable_next_compression : Bool
  trailing_metadata : Option Metadata
  code : Option StatusCode
  details : Option String
  statused : Bool
  rpc_errors : Nat
  callbacks : Option (List Nat)
  abortion : Bool
deriving DecidableEq

/-- `_RPCState.__init__` (lines 87-100). -/
def initialRPCState : RPCState where
  due := ∅
  request := none
  client := ClientStatus.OPEN
  initial_metadata_allowed := true
  disable_next_compression := false
  trailing_metadata := none
  code := none
  details := none
  statused := false
  rpc_errors := 0
  callbacks := some []
  abortion := false

/-- `_application_code` (lines 56-58): translate an application code through
the dictionary, defaulting to `unknown`. -/
def _application_code (code : StatusCode) : CyStatusCode :=
  match STATUS_CODE_TO_CYGRPC_STATUS_CODE code with
  | none => CyStatusCode.unknown
  | some cygrpc_code => cygrpc_code

/-- `_completion_code` (lines 61-65). -/
def _completion_code (state : RPCState) : CyStatusCode :=
  match state.code with
  | none => CyStatusCode.ok
  | some code => _application_code code

/-- `_abortion_code` (lines 68-72). -/
def _abortion_code (state : RPCState) (code : CyStatusCode) : CyStatusCode :=
  match state.code with
  | none => code
  | some c => _application_code c

/-- `_details` (lines 75-76). -/
def _details (state : RPCState) : String :=
  match state.details with
  | none => ""
  | some d => d

/-- `_possibly_finish_call` (lines 109-116). The Python function returns
either `(state, callbacks)` — modelled as `some callbacks`, with the
callbacks list nulled out in the state — or `(None, ())` — modelled as
`none`. -/
def _possibly_finish_call (state : RPCState) (token : String) :
    RPCState × Option (Option (List Nat)) :=
  let state' := { state with due := state.due.erase token }
  if (state'.client = ClientStatus.CANCELLED ∨ state'.statused) ∧ state'.due = ∅ then
    ({ state' with callbacks := none }, some state'.callbacks)
  else
    (state', none)

/-- `_abort` (lines 127-155): schedule a terminal-status batch unless the
client is cancelled. Returns the new state and the batch started (if any). -/
def _abort (state : RPCState) (code : CyStatusCode) (details : String) :
    RPCState × Option Batch :=
  if state.client ≠ ClientStatus.CANCELLED then
    let effective_code := _abortion_code state code
    let effective_details :=
      match state.details with
      | none => details
      | some d => d
    if state.initial_metadata_allowed then
      let token := _SEND_INITIAL_METADATA_AND_SEND_STATUS_FROM_SERVER_TOKEN
      ({ state with statused := true, due := insert token state.due },
        some ⟨[Operation.SendInitialMetadataOperation none,
               Operation.SendStatusFromServerOperation state.trailing_metadata
                 effective_code effective_details], token⟩)
    else
      let token := _SEND_STATUS_FROM_SERVER_TOKEN
      ({ state with statused := true, due := insert token state.due },
        some ⟨[Operation.SendStatusFromServerOperation state.trailing_metadata
                 effective_code effective_details], token⟩)
  else
    (state, none)

/-- `_status` (lines 469-492): schedule the terminal status computed from the
latched state, bundling initial metadata and a final response when
applicable. -/
def _status (state : RPCState) (serialized_response : Option String) :
    RPCState × Option Batch :=
  if state.client ≠ ClientStatus.CANCELLED then
    let code := _completion_code state
    let details := _details state
    let operations :=
      [Operation.SendStatusFromServerOperation state.trailing_metadata code details]
      ++ (if state.initial_metadata_allowed then
            [Operation.SendInitialMetadataOperation none] else [])
      ++ (match serialized_response with
          | none => []
          | some r => [Operation.SendMessageOperation r])
    ({ state with
        statused := true
        due := insert _SEND_STATUS_FROM_SERVER_TOKEN state.due },
      some ⟨operations, _SEND_STATUS_FROM_SERVER_TOKEN⟩)
  else
    (state, none)

/-- Result of one per-call event continuation run by the dispatch loop: the
updated state, the batch it started (if any), and the
`_possibly_finish_call` result. -/
structure EventResult where
  state : RPCState
  started : Option Batch
  finished : Option (Option (List Nat))
deriving DecidableEq

/-- Continuation built by `_receive_close_on_server` (lines 157-167), applied
to the completion event's `cancelled()` bit. -/
def receive_close_on_server (state : RPCState) (event_cancelled : Bool) :
    EventResult :=
  let state1 :=
    if event_cancelled then
      { state with client := ClientStatus.CANCELLED }
    else if state.client = ClientStatus.OPEN then
      { state with client := ClientStatus.CLOSED }
    else
      state
  let finish := _possibly_finish_call state1 _RECEIVE_CLOSE_ON_SERVER_TOKEN
  ⟨finish.1, none, finish.2⟩

/-- Continuation built by `_receive_message` (lines 170-194), applied to the
received payload (`none` models an absent message, i.e. the peer closed). -/
def receive_message (state : RPCState)
    (request_deserializer : String → Option String)
    (serialized_request : Option String) : EventResult :=
  match serialized_request with
  | none =>
    let state1 :=
      if state.client = ClientStatus.OPEN then
        { state with client := ClientStatus.CLOSED }
      else
        state
    let finish := _possibly_finish_call state1 _RECEIVE_MESSAGE_TOKEN
    ⟨finish.1, none, finish.2⟩
  | some serialized =>
    match request_deserializer serialized with
    | none =>
      let aborted :=
        _abort state CyStatusCode.internal "Exception deserializing request!"
      let finish := _possibly_finish_call aborted.1 _RECEIVE_MESSAGE_TOKEN
      ⟨finish.1, aborted.2, finish.2⟩
    | some request =>
      let finish :=
        _possibly_finish_call { state with request := some request }
          _RECEIVE_MESSAGE_TOKEN
      ⟨finish.1, none, finish.2⟩

/-- Continuation built by `_send_initial_metadata` (lines 197-202). -/
def send_initial_metadata_event (state : RPCState) : EventResult :=
  let finish := _possibly_finish_call state _SEND_INITIAL_METADATA_TOKEN
  ⟨finish.1, none, finish.2⟩

/-- Continuation built by `_send_message` (lines 205-211). -/
def send_message_event (state : RPCState) (token : String) : EventResult :=
  let finish := _possibly_finish_call state token
  ⟨finish.1, none, finish.2⟩

/-- Continuation built by `_send_status_from_server` (lines 119-124). -/
def send_status_from_server_event (state : RPCState) (token : String) :
    EventResult :=
  let finish := _possibly_finish_call state token
  ⟨finish.1, none, finish.2⟩

/-- `_Context.is_active` (lines 220-222). -/
def Context_is_active (state : RPCState) : Bool :=
  state.client ≠ ClientStatus.CANCELLED ∧ ¬state.statused

/-- `_Context.add_callback` (lines 230-236). -/
def Context_add_callback (state : RPCState) (callback : Nat) :
    RPCState × Bool :=
  match state.callbacks with
  | none => (state, false)
  | some callbacks => ({ state with callbacks := some (callbacks ++ [callback]) }, true)

/-- `_Context.disable_next_message_compression` (lines 238-240). -/
def Context_disable_next_message_compression (state : RPCState) : RPCState :=
  { state with disable_next_compression := true }

/-- How a call of `_Context.send_initial_metadata` ends. -/
inductive SendIMOutcome
  | sent
  | raisedRpcError
  | raisedValueError
deriving DecidableEq, Repr

/-- `_Context.send_initial_metadata` (lines 261-276): raise `RpcError` when
the client is cancelled, raise `ValueError` when initial metadata is no
longer allowed, otherwise start the send batch. -/
def Context_send_initial_metadata (state : RPCState)
    (initial_metadata : Metadata) : RPCState × SendIMOutcome × Option Batch :=
  if state.client = ClientStatus.CANCELLED then
    ({ state with rpc_errors := state.rpc_errors + 1 },
      SendIMOutcome.raisedRpcError, none)
  else if state.initial_metadata_allowed then
    ({ state with
        initial_metadata_allowed := false
        due := insert _SEND_INITIAL_METADATA_TOKEN state.due },
      SendIMOutcome.sent,
      some ⟨[Operation.SendInitialMetadataOperation (some initial_metadata)],
            _SEND_INITIAL_METADATA_TOKEN⟩)
  else
    (state, SendIMOutcome.raisedValueError, none)

/-- `_Context.set_trailing_metadata` (lines 278-280). -/
def Context_set_trailing_metadata (state : RPCState)
    (trailing_metadata : Option Metadata) : RPCState :=
  { state with trailing_metadata := trailing_metadata }

/-- The exception raised by `_Context.abort`: the sentinel stored in
`state.abortion`. The method has no normal-return alternative because its
last statement is an unconditional `raise`. -/
inductive AbortRaise
  | abortionSentinel
deriving DecidableEq, Repr

/-- `_Context.abort` (lines 282-292): a request to abort with the success
code is downgraded to UNKNOWN with empty detail; the code and detail are
latched onto the state, the sentinel exception is created and raised. -/
def Context_abort (state : RPCState) (code : StatusCode) (details : String) :
    RPCState × AbortRaise :=
  let code' := if code = StatusCode.OK then StatusCode.UNKNOWN else code
  let details' := if code = StatusCode.OK then "" else details
  ({ state with
      code := some code'
      details := some details'
      abortion := true },
    AbortRaise.abortionSentinel)

/-- `_Context.set_code` (lines 294-296). -/
def Context_set_code (state : RPCState) (code : StatusCode) : RPCState :=
  { state with code := some code }

/-- `_Context.set_details` (lines 298-300). -/
def Context_set_details (state : RPCState) (details : String) : RPCState :=
  { state with details := some details }

/-- `_RequestIterator._raise_or_start_receive_message` (lines 309-319):
either raise (`RpcError` on cancel, `StopIteration` at end of stream) or
start a receive batch. -/
inductive ReqIterStart
  | raisedRpcError (state : RPCState)
  | raisedStopIteration
  | started (state : RPCState) (batch : Batch)
deriving DecidableEq

def raise_or_start_receive_message (state : RPCState) : ReqIterStart :=
  if state.client = ClientStatus.CANCELLED then
    ReqIterStart.raisedRpcError { state with rpc_errors := state.rpc_errors + 1 }
  else if state.client = ClientStatus.CLOSED ∨ state.statused then
    ReqIterStart.raisedStopIteration
  else
    ReqIterStart.started
      { state with due := insert _RECEIVE_MESSAGE_TOKEN state.due }
      ⟨[Operation.ReceiveMessageOperation], _RECEIVE_MESSAGE_TOKEN⟩

/-- `_RequestIterator._look_for_request` (lines 321-332). -/
inductive ReqIterLook
  | raisedRpcError (state : RPCState)
  | raisedStopIteration
  | took (state : RPCState) (request : Option String)
deriving DecidableEq

def look_for_request (state : RPCState) : ReqIterLook :=
  if state.client = ClientStatus.CANCELLED then
    ReqIterLook.raisedRpcError { state with rpc_errors := state.rpc_errors + 1 }
  else if state.request = none ∧ _RECEIVE_MESSAGE_TOKEN ∉ state.due then
    ReqIterLook.raisedStopIteration
  else
    ReqIterLook.took { state with request := none } state.request

/-- Entry of the closure built by `_unary_request` (lines 355-363): bail out
returning `None` if the call is already cancelled or statused, otherwise
start the receive-message batch (after which the closure waits on the
condition). -/
def unary_request_start (state : RPCState) : Option (RPCState × Batch) :=
  if state.client = ClientStatus.CANCELLED ∨ state.statused then
    none
  else
    some ({ state with due := insert _RECEIVE_MESSAGE_TOKEN state.due },
      ⟨[Operation.ReceiveMessageOperation], _RECEIVE_MESSAGE_TOKEN⟩)

/-- One iteration of the wait loop in `_unary_request` (lines 364-383),
evaluated on the state observed after a condition wakeup. -/
inductive UnaryWakeResult
  | keepWaiting
  | abandoned (state : RPCState) (started : Option Batch)
  | got (state : RPCState) (request : String)
deriving DecidableEq

def unary_request_wake (method : String) (state : RPCState) :
    UnaryWakeResult :=
  match state.request with
  | none =>
    if state.client = ClientStatus.CLOSED then
      let details := "\"" ++ method ++ "\" requires exactly one request message."
      let aborted := _abort state CyStatusCode.unimplemented details
      UnaryWakeResult.abandoned aborted.1 aborted.2
    else if state.client = ClientStatus.CANCELLED then
      UnaryWakeResult.abandoned state none
    else
      UnaryWakeResult.keepWaiting
  | some request =>
    UnaryWakeResult.got { state with request := none } request

/-- Outcome of running an application behavior (or pulling on a response
iterator): a normal return, the call's own abortion sentinel, an `RpcError`
previously recorded in `state.rpc_errors`, or any other exception. -/
inductive BehaviorOutcome (α : Type)
  | returns (value : α)
  | raisesAbortion
  | raisesRpcError
  | raisesOther (message : String)
deriving DecidableEq

/-- `_call_behavior` (lines 388-405): run the behavior; translate the
abortion sentinel or an unexpected exception into an UNKNOWN abort; a
recorded `RpcError` is swallowed. Returns (state, started batch, returned
value, proceed flag). -/
def _call_behavior (state : RPCState) (outcome : BehaviorOutcome String) :
    RPCState × Option Batch × Option String × Bool :=
  match outcome with
  | BehaviorOutcome.returns value => (state, none, some value, true)
  | BehaviorOutcome.raisesAbortion =>
    let aborted := _abort state CyStatusCode.unknown "RPC Aborted"
    (aborted.1, aborted.2, none, false)
  | BehaviorOutcome.raisesRpcError => (state, none, none, false)
  | BehaviorOutcome.raisesOther message =>
    let aborted :=
      _abort state CyStatusCode.unknown
        ("Exception calling application: " ++ message)
    (aborted.1, aborted.2, none, false)

/-- `_serialize_response` (lines 429-441): serialization failure aborts with
INTERNAL. -/
def _serialize_response (state : RPCState)
    (response_serializer : String → Option String) (response : String) :
    RPCState × Option Batch × Option String :=
  match response_serializer response with
  | none =>
    let aborted :=
      _abort state CyStatusCode.internal "Failed to serialize response!"
    (aborted.1, aborted.2, none)
  | some serialized_response => (state, none, some serialized_response)

/-- Entry of `_send_response` (lines 444-462), before the wait loop: refuse
when the call is cancelled or statused, otherwise start the send batch
(bundling initial metadata on the first send). -/
inductive SendResponseStart
  | stopped
  | started (state : RPCState) (batch : Batch)
deriving DecidableEq

def send_response_start (state : RPCState) (serialized_response : String) :
    SendResponseStart :=
  if state.client = ClientStatus.CANCELLED ∨ state.statused then
    SendResponseStart.stopped
  else if state.initial_metadata_allowed then
    SendResponseStart.started
      { state with
          initial_metadata_allowed := false
          due := insert _SEND_INITIAL_METADATA_AND_SEND_MESSAGE_TOKEN state.due }
      ⟨[Operation.SendInitialMetadataOperation none,
        Operation.SendMessageOperation serialized_response],
       _SEND_INITIAL_METADATA_AND_SEND_MESSAGE_TOKEN⟩
  else
    SendResponseStart.started
      { state with due := insert _SEND_MESSAGE_TOKEN state.due }
      ⟨[Operation.SendMessageOperation serialized_response], _SEND_MESSAGE_TOKEN⟩

/-- One iteration of the wait loop in `_send_response` (lines 463-466):
once the token has left `due`, report whether the stream may continue. -/
def send_response_wake (state : RPCState) (token : String) : Option Bool :=
  if token ∉ state.due then
    some (decide (state.client ≠ ClientStatus.CANCELLED ∧ ¬state.statused))
  else
    none

/-- `_unary_response_in_pool` (lines 495-513), with the argument thunk
already evaluated, the behavior given by its outcome, and the serializer
pluggable. Returns the final state, every batch started, and whether the
application behavior was invoked. -/
def _unary_response_in_pool (state : RPCState) (argument : Option String)
    (behavior : String → BehaviorOutcome String)
    (response_serializer : String → Option String) :
    RPCState × List Batch × Bool :=
  match argument with
  | none => (state, [], false)
  | some arg =>
    let called := _call_behavior state (behavior arg)
    let state1 := called.1
    let started1 := called.2.1
    let response := called.2.2.1
    let proceed := called.2.2.2
    if proceed then
      match response with
      | none =>
        -- not reachable: `_call_behavior` returns a value whenever `proceed`
        (state1, started1.toList, true)
      | some r =>
        let serialized := _serialize_response state1 response_serializer r
        let state2 := serialized.1
        let started2 := serialized.2.1
        match serialized.2.2 with
        | none => (state2, started1.toList ++ started2.toList, true)
        | some sr =>
          let statusd := _status state2 (some sr)
          (statusd.1,
            started1.toList ++ started2.toList ++ statusd.2.toList, true)
    else
      (state1, started1.toList, true)

/-- `_HandlerCallDetails` (lines 79-83). -/
structure HandlerCallDetails where
  method : String
  invocation_metadata : Metadata
deriving DecidableEq

/-- The slice of a `grpc.RpcMethodHandler` that the dispatch layer reads:
its two streaming capability flags (the behaviors themselves are consumed by
the invocation engine). -/
structure MethodHandler where
  request_streaming : Bool
  response_streaming : Bool
deriving DecidableEq

/-- Result of a Python call that may raise. -/
inductive PyResult (α : Type)
  | ok (value : α)
  | exc (message : String)
deriving DecidableEq

/-- The inner `query_handlers` of `_find_method_handler` (lines 615-620):
consult the generic handlers in registration order, first match wins; a
raising `service` propagates. -/
def query_handlers
    (generic_handlers : List (HandlerCallDetails → PyResult (Option MethodHandler)))
    (handler_call_details : HandlerCallDetails) :
    PyResult (Option MethodHandler) :=
  match generic_handlers with
  | [] => PyResult.ok none
  | generic_handler :: rest =>
    match generic_handler handler_call_details with
    | PyResult.exc message => PyResult.exc message
    | PyResult.ok (some method_handler) => PyResult.ok (some method_handler)
    | PyResult.ok none => query_handlers rest handler_call_details

/-- `_find_method_handler` (lines 614-629): route the lookup through the
interceptor pipeline when one is configured. -/
def _find_method_handler
    (generic_handlers : List (HandlerCallDetails → PyResult (Option MethodHandler)))
    (interceptor_pipeline :
      Option ((HandlerCallDetails → PyResult (Option MethodHandler)) →
        HandlerCallDetails → PyResult (Option MethodHandler)))
    (handler_call_details : HandlerCallDetails) :
    PyResult (Option MethodHandler) :=
  match interceptor_pipeline with
  | some pipeline => pipeline (query_handlers generic_handlers) handler_call_details
  | none => query_handlers generic_handlers handler_call_details

/-- `_reject_rpc` (lines 632-642): a fresh `_RPCState` plus the single batch
that sends initial metadata, drains the close, and sends the terminal
status; no worker-pool task. -/
def _reject_rpc (status : CyStatusCode) (details : String) :
    RPCState × Batch :=
  (initialRPCState,
    ⟨[Operation.SendInitialMetadataOperation none,
      Operation.ReceiveCloseOnServerOperation,
      Operation.SendStatusFromServerOperation none status details],
     "reject_rpc"⟩)

/-- `_handle_with_method_handler` (lines 645-676): create the call state,
start the receive-close batch, and submit the shape-appropriate routine to
the worker pool. -/
structure HandledCall where
  state : RPCState
  started : Batch
  request_streaming : Bool
  response_streaming : Bool
deriving DecidableEq

def _handle_with_method_handler (method_handler : MethodHandler) : HandledCall :=
  let state :=
    { initialRPCState with
        due := insert _RECEIVE_CLOSE_ON_SERVER_TOKEN initialRPCState.due }
  ⟨state,
   ⟨[Operation.ReceiveCloseOnServerOperation], _RECEIVE_CLOSE_ON_SERVER_TOKEN⟩,
   method_handler.request_streaming, method_handler.response_streaming⟩

/-- The new-call completion event as `_handle_call` reads it. -/
structure RpcEvent where
  success : Bool
  method : Option String
  invocation_metadata : Metadata

/-- What `_handle_call` returns, as the pair `(rpc_state, rpc_future)`
collapses to: `noCall` is `(None, None)`, `rejected` is
`(_reject_rpc(...), None)` (future absent), `handled` is
`_handle_with_method_handler(...)` (future present). -/
inductive CallDisposition
  | noCall
  | rejected (rpc_state : RPCState) (started : Batch)
  | handled (call : HandledCall)
deriving DecidableEq

/-- The terminal-status code a rejected disposition carries, read off its
batch. -/
def CallDisposition.rejectionStatus : CallDisposition → Option CyStatusCode
  | CallDisposition.rejected _ started => started.statusCode
  | _ => none

/-- Whether a worker-pool task was submitted (the returned `rpc_future` is
not `None`). -/
def CallDisposition.poolTaskSubmitted : CallDisposition → Bool
  | CallDisposition.handled _ => true
  | _ => false

/-- `_handle_call` (lines 679-717). -/
def _handle_call (rpc_event : RpcEvent)
    (generic_handlers : List (HandlerCallDetails → PyResult (Option MethodHandler)))
    (interceptor_pipeline :
      Option ((HandlerCallDetails → PyResult (Option MethodHandler)) →
        HandlerCallDetails → PyResult (Option MethodHandler)))
    (concurrency_exceeded : Bool) : CallDisposition :=
  if ¬rpc_event.success then
    CallDisposition.noCall
  else
    match rpc_event.method with
    | none => CallDisposition.noCall
    | some method =>
      match _find_method_handler generic_handlers interceptor_pipeline
          ⟨method, rpc_event.invocation_metadata⟩ with
      | PyResult.exc _ =>
        let rejected :=
          _reject_rpc CyStatusCode.unknown "Error in service handler!"
        CallDisposition.rejected rejected.1 rejected.2
      | PyResult.ok none =>
        let rejected :=
          _reject_rpc CyStatusCode.unimplemented "Method not found!"
        CallDisposition.rejected rejected.1 rejected.2
      | PyResult.ok (some method_handler) =>
        if concurrency_exceeded then
          let rejected :=
            _reject_rpc CyStatusCode.resource_exhausted
              "Concurrent RPC limit exceeded!"
          CallDisposition.rejected rejected.1 rejected.2
        else
          CallDisposition.handled (_handle_with_method_handler method_handler)

/-- The admission predicate computed by `_serve` on a new-call event
(lines 804-807): `state.maximum_concurrent_rpcs is not None and
state.active_rpc_count >= state.maximum_concurrent_rpcs`. -/
def serve_concurrency_exceeded (maximum_concurrent_rpcs : Option Nat)
    (active_rpc_count : Nat) : Bool :=
  match maximum_concurrent_rpcs with
  | none => false
  | some maximum => active_rpc_count ≥ maximum

/-- Every operation in `_server.py` that mutates an `_RPCState`, collected
into one step type so that state invariants can be proved once over all of
them. Operation parameters that are pluggable functions (deserializers,
serializers) stay function-valued. -/
inductive CallOp
  | recvClose (event_cancelled : Bool)
  | recvMessage (request_deserializer : String → Option String)
      (serialized_request : Option String)
  | sendIMEvent
  | sendMessageEvent (token : String)
  | sendStatusEvent (token : String)
  | abortOp (code : CyStatusCode) (details : String)
  | statusOp (serialized_response : Option String)
  | unaryStart
  | unaryWake (method : String)
  | reqIterStart
  | reqIterLook
  | sendRespStart (serialized_response : String)
  | serializeResp (response_serializer : String → Option String) (response : String)
  | behaviorDone (outcome : BehaviorOutcome String)
  | ctxAddCallback (callback : Nat)
  | ctxDisableCompression
  | ctxSendInitialMetadata (initial_metadata : Metadata)
  | ctxSetTrailingMetadata (trailing_metadata : Option Metadata)
  | ctxAbort (code : StatusCode) (details : String)
  | ctxSetCode (code : StatusCode)
  | ctxSetDetails (details : String)

/-- The state transition of each operation, projected from its model. -/
def applyOp (state : RPCState) (op : CallOp) : RPCState :=
  match op with
  | CallOp.recvClose event_cancelled =>
    (receive_close_on_server state event_cancelled).state
  | CallOp.recvMessage request_deserializer serialized_request =>
    (receive_message state request_deserializer serialized_request).state
  | CallOp.sendIMEvent => (send_initial_metadata_event state).state
  | CallOp.sendMessageEvent token => (send_message_event state token).state
  | CallOp.sendStatusEvent token =>
    (send_status_from_server_event state token).state
  | CallOp.abortOp code details => (_abort state code details).1
  | CallOp.statusOp serialized_response =>
    (_status state serialized_response).1
  | CallOp.unaryStart =>
    match unary_request_start state with
    | none => state
    | some (state1, _) => state1
  | CallOp.unaryWake method =>
    match unary_request_wake method state with
    | UnaryWakeResult.keepWaiting => state
    | UnaryWakeResult.abandoned state1 _ => state1
    | UnaryWakeResult.got state1 _ => state1
  | CallOp.reqIterStart =>
    match raise_or_start_receive_message state with
    | ReqIterStart.raisedRpcError state1 => state1
    | ReqIterStart.raisedStopIteration => state
    | ReqIterStart.started state1 _ => state1
  | CallOp.reqIterLook =>
    match look_for_request state with
    | ReqIterLook.raisedRpcError state1 => state1
    | ReqIterLook.raisedStopIteration => state
    | ReqIterLook.took state1 _ => state1
  | CallOp.sendRespStart serialized_response =>
    match send_response_start state serialized_response with
    | SendResponseStart.stopped => state
    | SendResponseStart.started state1 _ => state1
  | CallOp.serializeResp response_serializer response =>
    (_serialize_response state response_serializer response).1
  | CallOp.behaviorDone outcome => (_call_behavior state outcome).1
  | CallOp.ctxAddCallback callback => (Context_add_callback state callback).1
  | CallOp.ctxDisableCompression =>
    Context_disable_next_message_compression state
  | CallOp.ctxSendInitialMetadata initial_metadata =>
    (Context_send_initial_metadata state initial_metadata).1
  | CallOp.ctxSetTrailingMetadata trailing_metadata =>
    Context_set_trailing_metadata state trailing_metadata
  | CallOp.ctxAbort code details => (Context_abort state code details).1
  | CallOp.ctxSetCode code => Context_set_code state code
  | CallOp.ctxSetDetails details => Context_set_details state details

/-! Helper lemmas shared by several proofs. -/

theorem possibly_finish_call_client (state : RPCState) (token : String) :
    (_possibly_finish_call state token).1.client = state.client := by
  by_cases h : (state.client = ClientStatus.CANCELLED ∨ state.statused) ∧
      state.due.erase token = ∅ <;>
    simp [_possibly_finish_call, h]

theorem abort_client_eq (state : RPCState) (code : CyStatusCode)
    (details : String) : (_abort state code details).1.client = state.client := by
  by_cases h : state.client = ClientStatus.CANCELLED <;>
    by_cases h2 : state.initial_metadata_allowed <;>
      simp [_abort, h, h2]

theorem status_client_eq (state : RPCState) (serialized_response : Option String) :
    (_status state serialized_response).1.client = state.client := by
  by_cases h : state.client = ClientStatus.CANCELLED <;>
    simp [_status, h]

/-- C5: for a token in the due set, `_possibly_finish_call` returns the call
with its callbacks (nulling the callbacks list) iff after removing the token
the due set is empty and the client is cancelled or the call is statused;
otherwise it returns no call and leaves the callbacks list in place. -/
theorem possibly_finish_call_spec (state : RPCState) (token : String)
    (htok : token ∈ state.due) :
    ((_possibly_finish_call state token).2.isSome ↔
      ((state.client = ClientStatus.CANCELLED ∨ state.statused) ∧
        state.due.erase token = ∅)) ∧
    (((state.client = ClientStatus.CANCELLED ∨ state.statused) ∧
        state.due.erase token = ∅) →
      _possibly_finish_call state token =
        ({ state with due := state.due.erase token, callbacks := none },
          some state.callbacks)) ∧
    (¬((state.client = ClientStatus.CANCELLED ∨ state.statused) ∧
        state.due.erase token = ∅) →
      _possibly_finish_call state token =
        ({ state with due := state.due.erase token }, none)) := by
  by_cases h : (state.client = ClientStatus.CANCELLED ∨ state.statused) ∧
      state.due.erase token = ∅
  · refine ⟨?_, fun _ => ?_, fun hn => absurd h hn⟩
    · simp [_possibly_finish_call, h]
    · simp [_possibly_finish_call, h]
  · refine ⟨?_, fun hc => absurd hc h, fun _ => ?_⟩
    · simp [_possibly_finish_call, h]
    · simp [_possibly_finish_call, h]

/-- C5 witness. -/
theorem possibly_finish_call_spec_witness :
    "send_status_from_server" ∈
      ({ initialRPCState with
          due := {"send_status_from_server"}, statused := true } : RPCState).due ∧
    (_possibly_finish_call
      { initialRPCState with
          due := {"send_status_from_server"}, statused := true }
      "send_status_from_server").2.isSome := by
  refine ⟨by decide, ?_⟩
  exact (possibly_finish_call_spec _ _ (by decide)).1.mpr (by decide)

/-- C9: `_Context.add_callback` refuses (returns `False`, does not enqueue)
once the callbacks list has been consumed, in particular on any state
`_possibly_finish_call` has retired; before retirement it appends the
callback and returns `True`. -/
theorem add_callback_retired_spec (state : RPCState) (callback : Nat) :
    (state.callbacks = none →
      Context_add_callback state callback = (state, false)) ∧
    (∀ callbacks, state.callbacks = some callbacks →
      Context_add_callback state callback =
        ({ state with callbacks := some (callbacks ++ [callback]) }, true)) ∧
    (∀ token, (_possibly_finish_call state token).2.isSome →
      Context_add_callback (_possibly_finish_call state token).1 callback =
        ((_possibly_finish_call state token).1, false)) := by
  refine ⟨fun hn => ?_, fun callbacks hs => ?_, fun token hfin => ?_⟩
  · simp only [Context_add_callback, hn]
  · simp only [Context_add_callback, hs]
  · by_cases h : (state.client = ClientStatus.CANCELLED ∨ state.statused) ∧
        state.due.erase token = ∅
    · simp [_possibly_finish_call, h, Context_add_callback]
    · simp [_possibly_finish_call, h] at hfin

/-- C9 witness. -/
theorem add_callback_retired_spec_witness :
    ({ initialRPCState with callbacks := none } : RPCState).callbacks = none ∧
    Context_add_callback { initialRPCState with callbacks := none } 7 =
      ({ initialRPCState with callbacks := none }, false) := by
  refine ⟨rfl, ?_⟩
  exact (add_callback_retired_spec { initialRPCState with callbacks := none } 7).1 rfl

/-- C8: `_Context.send_initial_metadata` succeeds at most once — it raises
`RpcError` when the client is cancelled, raises `ValueError` when initial
metadata is no longer allowed, and otherwise starts the send and clears
`initial_metadata_allowed`; once the flag is cleared no call of it sends
again. -/
theorem send_initial_metadata_spec (state : RPCState)
    (initial_metadata : Metadata) :
    (state.client = ClientStatus.CANCELLED →
      Context_send_initial_metadata state initial_metadata =
        ({ state with rpc_errors := state.rpc_errors + 1 },
          SendIMOutcome.raisedRpcError, none)) ∧
    (state.client ≠ ClientStatus.CANCELLED →
      state.initial_metadata_allowed = false →
      Context_send_initial_metadata state initial_metadata =
        (state, SendIMOutcome.raisedValueError, none)) ∧
    (state.client ≠ ClientStatus.CANCELLED →
      state.initial_metadata_allowed = true →
      Context_send_initial_metadata state initial_metadata =
        ({ state with
            initial_metadata_allowed := false
            due := insert _SEND_INITIAL_METADATA_TOKEN state.due },
          SendIMOutcome.sent,
          some ⟨[Operation.SendInitialMetadataOperation (some initial_metadata)],
                _SEND_INITIAL_METADATA_TOKEN⟩)) ∧
    (state.initial_metadata_allowed = false →
      (Context_send_initial_metadata state initial_metadata).2.1 ≠
        SendIMOutcome.sent) := by
  refine ⟨fun hc => ?_, fun hc hal => ?_, fun hc hal => ?_, fun hal => ?_⟩
  · simp [Context_send_initial_metadata, hc]
  · simp [Context_send_initial_metadata, hc, hal]
  · simp [Context_send_initial_metadata, hc, hal]
  · by_cases hc : state.client = ClientStatus.CANCELLED <;>
      simp [Context_send_initial_metadata, hc, hal]

/-- C8 witness. -/
theorem send_initial_metadata_spec_witness :
    ({ initialRPCState with client := ClientStatus.CANCELLED } : RPCState).client
      = ClientStatus.CANCELLED ∧
    Context_send_initial_metadata
        { initialRPCState with client := ClientStatus.CANCELLED } [] =
      ({ initialRPCState with
          client := ClientStatus.CANCELLED, rpc_errors := 1 },
        SendIMOutcome.raisedRpcError, none) := by
  refine ⟨rfl, ?_⟩
  exact (send_initial_metadata_spec
    { initialRPCState with client := ClientStatus.CANCELLED } []).1 rfl

/-- C10: when the handler ran to completion without `set_code`/`abort`
(`state.code` is `None`) and the client is not cancelled, the terminal
status scheduled by `_status` carries code OK, and when `state.details` is
`None` the status detail is the empty byte string. -/
theorem status_ok_empty_default (state : RPCState)
    (serialized_response : Option String) (hcode : state.code = none)
    (hclient : state.client ≠ ClientStatus.CANCELLED) :
    ∃ rest, (_status state serialized_response).2 =
      some ⟨Operation.SendStatusFromServerOperation state.trailing_metadata
              CyStatusCode.ok (_details state) :: rest,
            _SEND_STATUS_FROM_SERVER_TOKEN⟩ ∧
      (state.details = none → _details state = "") := by
  refine ⟨(if state.initial_metadata_allowed then
      [Operation.SendInitialMetadataOperation none] else []) ++
      (match serialized_response with
        | none => []
        | some r => [Operation.SendMessageOperation r]), ?_, fun h => ?_⟩
  · simp [_status, hclient, _completion_code, hcode]
  · simp [_details, h]

/-- C10 witness. -/
theorem status_ok_empty_default_witness :
    ∃ rest, (_status initialRPCState none).2 =
      some ⟨Operation.SendStatusFromServerOperation
              initialRPCState.trailing_metadata CyStatusCode.ok
              (_details initialRPCState) :: rest,
            _SEND_STATUS_FROM_SERVER_TOKEN⟩ ∧
      (initialRPCState.details = none → _details initialRPCState = "") :=
  status_ok_empty_default initialRPCState none rfl (by decide)

/-- C6: `context.abort(StatusCode.OK, details)` latches code UNKNOWN and
empty detail onto the state, creates and raises the sentinel exception
(`Context_abort`'s only outcome is the raise), and the status the invocation
engine then delivers through its catch site has code `unknown` and empty
detail. -/
theorem context_abort_ok_spec (state : RPCState) (details : String) :
    (Context_abort state StatusCode.OK details).1.code = some StatusCode.UNKNOWN ∧
    (Context_abort state StatusCode.OK details).1.details = some "" ∧
    (Context_abort state StatusCode.OK details).1.abortion = true ∧
    (Context_abort state StatusCode.OK details).2 = AbortRaise.abortionSentinel ∧
    (state.client ≠ ClientStatus.CANCELLED →
      ∃ b, (_call_behavior (Context_abort state StatusCode.OK details).1
              BehaviorOutcome.raisesAbortion).2.1 = some b ∧
        b.statusCode = some CyStatusCode.unknown ∧
        b.statusDetails = some "") := by
  refine ⟨rfl, rfl, rfl, rfl, fun hclient => ?_⟩
  by_cases him : state.initial_metadata_allowed
  · refine ⟨⟨[Operation.SendInitialMetadataOperation none,
        Operation.SendStatusFromServerOperation state.trailing_metadata
          CyStatusCode.unknown ""],
        _SEND_INITIAL_METADATA_AND_SEND_STATUS_FROM_SERVER_TOKEN⟩, ?_, rfl, rfl⟩
    simp [_call_behavior, _abort, Context_abort, hclient, him,
      _abortion_code, _application_code, STATUS_CODE_TO_CYGRPC_STATUS_CODE]
  · refine ⟨⟨[Operation.SendStatusFromServerOperation state.trailing_metadata
          CyStatusCode.unknown ""],
        _SEND_STATUS_FROM_SERVER_TOKEN⟩, ?_, rfl, rfl⟩
    simp [_call_behavior, _abort, Context_abort, hclient, him,
      _abortion_code, _application_code, STATUS_CODE_TO_CYGRPC_STATUS_CODE]

/-- C6 witness. -/
theorem context_abort_ok_spec_witness :
    (Context_abort initialRPCState StatusCode.OK "all good").1.code =
      some StatusCode.UNKNOWN ∧
    (Context_abort initialRPCState StatusCode.OK "all good").1.details =
      some "" ∧
    initialRPCState.client ≠ ClientStatus.CANCELLED ∧
    ∃ b, (_call_behavior
        (Context_abort initialRPCState StatusCode.OK "all good").1
        BehaviorOutcome.raisesAbortion).2.1 = some b ∧
      b.statusCode = some CyStatusCode.unknown ∧
      b.statusDetails = some "" := by
  have h := context_abort_ok_spec initialRPCState "all good"
  exact ⟨h.1, h.2.1, by decide, h.2.2.2.2 (by decide)⟩

theorem recv_close_client (state : RPCState) (event_cancelled : Bool) :
    (receive_close_on_server state event_cancelled).state.client =
      if event_cancelled then ClientStatus.CANCELLED
      else if state.client = ClientStatus.OPEN then ClientStatus.CLOSED
      else state.client := by
  by_cases hec : event_cancelled <;>
    by_cases ho : state.client = ClientStatus.OPEN <;>
      simp [receive_close_on_server, hec, ho, possibly_finish_call_client]

theorem recv_message_client (state : RPCState)
    (request_deserializer : String → Option String)
    (serialized_request : Option String) :
    (receive_message state request_deserializer serialized_request).state.client
        = state.client ∨
      (state.client = ClientStatus.OPEN ∧
        (receive_message state request_deserializer
          serialized_request).state.client = ClientStatus.CLOSED) := by
  cases serialized_request with
  | none =>
    by_cases ho : state.client = ClientStatus.OPEN
    · exact Or.inr ⟨ho, by
        simp [receive_message, ho, possibly_finish_call_client]⟩
    · exact Or.inl (by simp [receive_message, ho, possibly_finish_call_client])
  | some serialized =>
    cases hd : request_deserializer serialized with
    | none =>
      exact Or.inl (by
        simp [receive_message, hd, possibly_finish_call_client, abort_client_eq])
    | some request =>
      exact Or.inl (by simp [receive_message, hd, possibly_finish_call_client])

theorem applyOp_client_cases (state : RPCState) (op : CallOp) :
    (applyOp state op).client = state.client ∨
      (state.client = ClientStatus.OPEN ∧
        (applyOp state op).client = ClientStatus.CLOSED) ∨
      (applyOp state op).client = ClientStatus.CANCELLED := by
  cases op with
  | recvClose event_cancelled =>
    by_cases hec : event_cancelled
    · exact Or.inr (Or.inr (by simp [applyOp, recv_close_client, hec]))
    · by_cases ho : state.client = ClientStatus.OPEN
      · exact Or.inr (Or.inl ⟨ho, by simp [applyOp, recv_close_client, hec, ho]⟩)
      · exact Or.inl (by simp [applyOp, recv_close_client, hec, ho])
  | recvMessage request_deserializer serialized_request =>
    rcases recv_message_client state request_deserializer serialized_request
      with h | h
    · exact Or.inl h
    · exact Or.inr (Or.inl h)
  | sendIMEvent =>
    exact Or.inl (by
      simp [applyOp, send_initial_metadata_event, possibly_finish_call_client])
  | sendMessageEvent token =>
    exact Or.inl (by
      simp [applyOp, send_message_event, possibly_finish_call_client])
  | sendStatusEvent token =>
    exact Or.inl (by
      simp [applyOp, send_status_from_server_event, possibly_finish_call_client])
  | abortOp code details => exact Or.inl (abort_client_eq state code details)
  | statusOp serialized_response =>
    exact Or.inl (status_client_eq state serialized_response)
  | unaryStart =>
    refine Or.inl ?_
    by_cases h : state.client = ClientStatus.CANCELLED ∨ state.statused <;>
      simp [applyOp, unary_request_start, h]
  | unaryWake method =>
    refine Or.inl ?_
    cases hr : state.request with
    | some request => simp [applyOp, unary_request_wake, hr]
    | none =>
      by_cases hcl : state.client = ClientStatus.CLOSED
      · simp [applyOp, unary_request_wake, hr, hcl, abort_client_eq]
      · by_cases hca : state.client = ClientStatus.CANCELLED <;>
          simp [applyOp, unary_request_wake, hr, hcl, hca]
  | reqIterStart =>
    refine Or.inl ?_
    by_cases hca : state.client = ClientStatus.CANCELLED
    · simp [applyOp, raise_or_start_receive_message, hca]
    · by_cases hcs : state.client = ClientStatus.CLOSED ∨ state.statused <;>
        simp [applyOp, raise_or_start_receive_message, hca, hcs]
  | reqIterLook =>
    refine Or.inl ?_
    by_cases hca : state.client = ClientStatus.CANCELLED
    · simp [applyOp, look_for_request, hca]
    · by_cases hre : state.request = none ∧ _RECEIVE_MESSAGE_TOKEN ∉ state.due <;>
        simp [applyOp, look_for_request, hca, hre]
  | sendRespStart serialized_response =>
    refine Or.inl ?_
    by_cases h : state.client = ClientStatus.CANCELLED ∨ state.statused
    · simp [applyOp, send_response_start, h]
    · by_cases him : state.initial_metadata_allowed <;>
        simp [applyOp, send_response_start, h, him]
  | serializeResp response_serializer response =>
    refine Or.inl ?_
    cases hs : response_serializer response with
    | none => simp [applyOp, _serialize_response, hs, abort_client_eq]
    | some serialized => simp [applyOp, _serialize_response, hs]
  | behaviorDone outcome =>
    refine Or.inl ?_
    cases outcome <;> simp [applyOp, _call_behavior, abort_client_eq]
  | ctxAddCallback callback =>
    refine Or.inl ?_
    cases hc : state.callbacks <;> simp [applyOp, Context_add_callback, hc]
  | ctxDisableCompression =>
    exact Or.inl (by simp [applyOp, Context_disable_next_message_compression])
  | ctxSendInitialMetadata initial_metadata =>
    refine Or.inl ?_
    by_cases hca : state.client = ClientStatus.CANCELLED
    · simp [applyOp, Context_send_initial_metadata, hca]
    · by_cases him : state.initial_metadata_allowed <;>
        simp [applyOp, Context_send_initial_metadata, hca, him]
  | ctxSetTrailingMetadata trailing_metadata =>
    exact Or.inl (by simp [applyOp, Context_set_trailing_metadata])
  | ctxAbort code details => exact Or.inl (by simp [applyOp, Context_abort])
  | ctxSetCode code => exact Or.inl (by simp [applyOp, Context_set_code])
  | ctxSetDetails details => exact Or.inl (by simp [applyOp, Context_set_details])

theorem applyOp_cancelled_terminal (state : RPCState) (op : CallOp)
    (h : state.client = ClientStatus.CANCELLED) :
    (applyOp state op).client = ClientStatus.CANCELLED := by
  rcases applyOp_client_cases state op with he | ⟨ho, _⟩ | hc
  · rw [he, h]
  · rw [ho] at h
    exact absurd h (by decide)
  · exact hc

/-- C7: the `client` field starts OPEN; every state-mutating operation of
the engine either leaves it unchanged, moves OPEN to CLOSED, or moves
OPEN/CLOSED to CANCELLED; once CANCELLED no operation changes it again. -/
theorem client_field_transitions :
    initialRPCState.client = ClientStatus.OPEN ∧
    ∀ (state : RPCState) (op : CallOp),
      (state.client = ClientStatus.CANCELLED →
        (applyOp state op).client = ClientStatus.CANCELLED) ∧
      ((applyOp state op).client = state.client ∨
        (state.client = ClientStatus.OPEN ∧
          (applyOp state op).client = ClientStatus.CLOSED) ∨
        ((state.client = ClientStatus.OPEN ∨
            state.client = ClientStatus.CLOSED) ∧
          (applyOp state op).client = ClientStatus.CANCELLED)) := by
  refine ⟨rfl, fun state op => ⟨applyOp_cancelled_terminal state op, ?_⟩⟩
  rcases applyOp_client_cases state op with he | h | hc
  · exact Or.inl he
  · exact Or.inr (Or.inl h)
  · by_cases hca : state.client = ClientStatus.CANCELLED
    · exact Or.inl (by rw [hc, hca])
    · refine Or.inr (Or.inr ⟨?_, hc⟩)
      cases hcl : state.client with
      | OPEN => exact Or.inl rfl
      | CLOSED => exact Or.inr rfl
      | CANCELLED => exact absurd hcl hca

/-- C7 witness. -/
theorem client_field_transitions_witness :
    ({ initialRPCState with client := ClientStatus.CANCELLED } : RPCState).client
      = ClientStatus.CANCELLED ∧
    (applyOp { initialRPCState with client := ClientStatus.CANCELLED }
      (CallOp.recvClose false)).client = ClientStatus.CANCELLED := by
  refine ⟨rfl, ?_⟩
  exact (client_field_transitions.2
    { initialRPCState with client := ClientStatus.CANCELLED }
    (CallOp.recvClose false)).1 rfl

/-- C4: when a concurrency ceiling is configured and the active-call count
has reached it, a successfully delivered new-call event whose lookup finds a
handler is rejected with RESOURCE_EXHAUSTED and no worker-pool task is
submitted; when no ceiling is configured the admission predicate is false
and no call is ever rejected with RESOURCE_EXHAUSTED. -/
theorem admission_control_spec (rpc_event : RpcEvent)
    (generic_handlers : List (HandlerCallDetails → PyResult (Option MethodHandler)))
    (interceptor_pipeline :
      Option ((HandlerCallDetails → PyResult (Option MethodHandler)) →
        HandlerCallDetails → PyResult (Option MethodHandler)))
    (maximum active : Nat) (method : String) (method_handler : MethodHandler)
    (hs : rpc_event.success = true) (hm : rpc_event.method = some method)
    (hfind : _find_method_handler generic_handlers interceptor_pipeline
      ⟨method, rpc_event.invocation_metadata⟩ = PyResult.ok (some method_handler))
    (hmax : active ≥ maximum) :
    ((_handle_call rpc_event generic_handlers interceptor_pipeline
        (serve_concurrency_exceeded (some maximum) active)).rejectionStatus =
          some CyStatusCode.resource_exhausted ∧
      (_handle_call rpc_event generic_handlers interceptor_pipeline
        (serve_concurrency_exceeded (some maximum) active)).poolTaskSubmitted =
          false) ∧
    ∀ (ev : RpcEvent)
      (gh : List (HandlerCallDetails → PyResult (Option MethodHandler)))
      (ip : Option ((HandlerCallDetails → PyResult (Option MethodHandler)) →
        HandlerCallDetails → PyResult (Option MethodHandler)))
      (a : Nat),
      (_handle_call ev gh ip (serve_concurrency_exceeded none a)).rejectionStatus
        ≠ some CyStatusCode.resource_exhausted := by
  constructor
  · have hce : serve_concurrency_exceeded (some maximum) active = true := by
      simp [serve_concurrency_exceeded, hmax]
    rw [hce]
    constructor
    · simp [_handle_call, hs, hm, hfind, _reject_rpc,
        CallDisposition.rejectionStatus, Batch.statusCode, List.findSome?]
    · simp [_handle_call, hs, hm, hfind, _reject_rpc,
        CallDisposition.poolTaskSubmitted]
  · intro ev gh ip a
    have hce : serve_concurrency_exceeded none a = false := rfl
    rw [hce]
    by_cases hs' : ev.success
    · cases hm' : ev.method with
      | none => simp [_handle_call, hs', hm', CallDisposition.rejectionStatus]
      | some m =>
        cases hf : _find_method_handler gh ip ⟨m, ev.invocation_metadata⟩ with
        | exc msg =>
          simp [_handle_call, hs', hm', hf, _reject_rpc,
            CallDisposition.rejectionStatus, Batch.statusCode, List.findSome?]
        | ok found =>
          cases found with
          | none =>
            simp [_handle_call, hs', hm', hf, _reject_rpc,
              CallDisposition.rejectionStatus, Batch.statusCode, List.findSome?]
          | some mh =>
            simp [_handle_call, hs', hm', hf, CallDisposition.rejectionStatus]
    · simp [_handle_call, hs', CallDisposition.rejectionStatus]

/-- C4 witness. -/
theorem admission_control_spec_witness :
    (_handle_call ⟨true, some "m", []⟩
      [fun _ => PyResult.ok (some ⟨false, false⟩)] none
      (serve_concurrency_exceeded (some 1) 1)).rejectionStatus =
        some CyStatusCode.resource_exhausted ∧
    (_handle_call ⟨true, some "m", []⟩
      [fun _ => PyResult.ok (some ⟨false, false⟩)] none
      (serve_concurrency_exceeded (some 1) 1)).poolTaskSubmitted = false := by
  exact (admission_control_spec ⟨true, some "m", []⟩
    [fun _ => PyResult.ok (some ⟨false, false⟩)] none 1 1 "m" ⟨false, false⟩
    rfl rfl rfl (by decide)).1

/-- C2 counterexample: a new-call event whose handler lookup raises is
rejected with status `unknown` — not `internal` as claimed (see
`_handle_call`, which passes `cygrpc.StatusCode.unknown` to `_reject_rpc`
in the exception branch). -/
theorem handle_call_lookup_exc_counterexample :
    (_handle_call ⟨true, some "m", []⟩ [fun _ => PyResult.exc "boom"] none
      false).rejectionStatus = some CyStatusCode.unknown ∧
    (_handle_call ⟨true, some "m", []⟩ [fun _ => PyResult.exc "boom"] none
      false).rejectionStatus ≠ some CyStatusCode.internal ∧
    (_handle_call ⟨true, some "m", []⟩ [fun _ => PyResult.exc "boom"] none
      false).poolTaskSubmitted = false := by
  refine ⟨rfl, ?_, rfl⟩
  intro h
  simp [_handle_call, _find_method_handler, query_handlers, _reject_rpc,
    CallDisposition.rejectionStatus, Batch.statusCode, List.findSome?] at h

/-- C2 amended: a new-call event whose handler lookup raises is rejected
with status UNKNOWN and details "Error in service handler!", and no
worker-pool task is created. -/
theorem handle_call_lookup_exc_spec (rpc_event : RpcEvent)
    (generic_handlers : List (HandlerCallDetails → PyResult (Option MethodHandler)))
    (interceptor_pipeline :
      Option ((HandlerCallDetails → PyResult (Option MethodHandler)) →
        HandlerCallDetails → PyResult (Option MethodHandler)))
    (concurrency_exceeded : Bool) (method : String) (message : String)
    (hs : rpc_event.success = true) (hm : rpc_event.method = some method)
    (hfind : _find_method_handler generic_handlers interceptor_pipeline
      ⟨method, rpc_event.invocation_metadata⟩ = PyResult.exc message) :
    _handle_call rpc_event generic_handlers interceptor_pipeline
        concurrency_exceeded =
      CallDisposition.rejected
        (_reject_rpc CyStatusCode.unknown "Error in service handler!").1
        (_reject_rpc CyStatusCode.unknown "Error in service handler!").2 ∧
    (_handle_call rpc_event generic_handlers interceptor_pipeline
      concurrency_exceeded).rejectionStatus = some CyStatusCode.unknown ∧
    (_handle_call rpc_event generic_handlers interceptor_pipeline
      concurrency_exceeded).poolTaskSubmitted = false := by
  refine ⟨?_, ?_, ?_⟩ <;>
    simp [_handle_call, hs, hm, hfind, _reject_rpc,
      CallDisposition.rejectionStatus, CallDisposition.poolTaskSubmitted,
      Batch.statusCode, List.findSome?]

/-- C2 amended witness. -/
theorem handle_call_lookup_exc_spec_witness :
    (_handle_call ⟨true, some "m", []⟩ [fun _ => PyResult.exc "boom"] none
      false).rejectionStatus = some CyStatusCode.unknown ∧
    (_handle_call ⟨true, some "m", []⟩ [fun _ => PyResult.exc "boom"] none
      false).poolTaskSubmitted = false := by
  have h := handle_call_lookup_exc_spec ⟨true, some "m", []⟩
    [fun _ => PyResult.exc "boom"] none false "m" "boom" rfl rfl rfl
  exact ⟨h.2.1, h.2.2⟩

theorem unary_arity_details_split (method : String) :
    "\"" ++ method ++ "\" requires exactly one request message." =
      ("\"" ++ method ++ "\" ") ++ "requires exactly one request message"
        ++ "." := by
  simp [String.append_assoc]

/-- C3: on the wakeup that finds no request with the peer closed, unary
request assembly schedules an UNIMPLEMENTED status whose detail contains
"requires exactly one request message" and abandons the call (returns
`None`, so `_unary_response_in_pool` never invokes the handler); when the
call is cancelled before a message arrives it abandons with no status, and
an already-cancelled call is abandoned at entry without starting anything. -/
theorem unary_request_spec (method : String) (state : RPCState)
    (hreq : state.request = none) (hcode : state.code = none)
    (hdet : state.details = none) :
    (state.client = ClientStatus.CLOSED →
      ∃ state1 b, unary_request_wake method state =
          UnaryWakeResult.abandoned state1 (some b) ∧
        state1.statused = true ∧
        b.statusCode = some CyStatusCode.unimplemented ∧
        ∃ pre suf, b.statusDetails =
          some (pre ++ "requires exactly one request message" ++ suf)) ∧
    (state.client = ClientStatus.CANCELLED →
      unary_request_wake method state = UnaryWakeResult.abandoned state none ∧
      unary_request_start state = none) ∧
    (∀ (behavior : String → BehaviorOutcome String)
        (response_serializer : String → Option String) (s : RPCState),
      _unary_response_in_pool s none behavior response_serializer =
        (s, [], false)) := by
  refine ⟨fun hcl => ?_, fun hca => ⟨?_, ?_⟩, fun behavior serializer s => rfl⟩
  · have hne : state.client ≠ ClientStatus.CANCELLED := by
      rw [hcl]; decide
    by_cases him : state.initial_metadata_allowed
    · refine ⟨{ state with
          statused := true
          due := insert _SEND_INITIAL_METADATA_AND_SEND_STATUS_FROM_SERVER_TOKEN
            state.due },
        ⟨[Operation.SendInitialMetadataOperation none,
          Operation.SendStatusFromServerOperation state.trailing_metadata
            CyStatusCode.unimplemented
            ("\"" ++ method ++ "\" requires exactly one request message.")],
          _SEND_INITIAL_METADATA_AND_SEND_STATUS_FROM_SERVER_TOKEN⟩,
        ?_, rfl, rfl, ?_⟩
      · simp [unary_request_wake, hreq, hcl, _abort, hne, him, hdet,
          _abortion_code, hcode]
      · exact ⟨"\"" ++ method ++ "\" ", ".", by
          simp [Batch.statusDetails, List.findSome?, unary_arity_details_split]⟩
    · refine ⟨{ state with
          statused := true
          due := insert _SEND_STATUS_FROM_SERVER_TOKEN state.due },
        ⟨[Operation.SendStatusFromServerOperation state.trailing_metadata
            CyStatusCode.unimplemented
            ("\"" ++ method ++ "\" requires exactly one request message.")],
          _SEND_STATUS_FROM_SERVER_TOKEN⟩, ?_, rfl, rfl, ?_⟩
      · simp [unary_request_wake, hreq, hcl, _abort, hne, him, hdet,
          _abortion_code, hcode]
      · exact ⟨"\"" ++ method ++ "\" ", ".", by
          simp [Batch.statusDetails, List.findSome?, unary_arity_details_split]⟩
  · simp [unary_request_wake, hreq, hca]
  · simp [unary_request_start, hca]

/-- C3 witness. -/
theorem unary_request_spec_witness :
    ∃ state1 b, unary_request_wake "m"
        { initialRPCState with client := ClientStatus.CLOSED } =
      UnaryWakeResult.abandoned state1 (some b) ∧
      state1.statused = true ∧
      b.statusCode = some CyStatusCode.unimplemented ∧
      ∃ pre suf, b.statusDetails =
        some (pre ++ "requires exactly one request message" ++ suf) :=
  (unary_request_spec "m" { initialRPCState with client := ClientStatus.CLOSED }
    rfl rfl rfl).1 rfl

/-- State of a freshly accepted unary call after `_handle_with_method_handler`
has started the receive-close batch and `_unary_request` has started the
receive-message batch. -/
def unaryTraceState0 : RPCState :=
  ((unary_request_start (_handle_with_method_handler ⟨false, false⟩).state).getD
    (initialRPCState, ⟨[], ""⟩)).1

/-- The receive-message completion on that call with a payload whose
deserialization fails: `_receive_message` runs `_abort` (INTERNAL), which
schedules the first terminal-status batch and sets the `statused` latch. -/
def unaryTraceRecv : EventResult :=
  receive_message unaryTraceState0 (fun _ => none) (some "x")

/-- The subsequent receive-close completion (peer closed, not cancelled). -/
def unaryTraceState2 : RPCState :=
  (receive_close_on_server unaryTraceRecv.state false).state

/-- C1 counterexample: on this reachable trace the deserialization failure
sets `statused` (first status batch scheduled by `_abort`), yet the later
`_unary_request` wakeup — seeing no request and the client CLOSED — runs
`_abort` again and starts a second send-status batch: neither `_abort` nor
`_status` consults the `statused` latch, only the cancellation check. -/
theorem statused_latch_counterexample :
    (∃ b, unaryTraceRecv.started = some b ∧ b.sendsStatus = true) ∧
    unaryTraceRecv.state.statused = true ∧
    unaryTraceState2.statused = true ∧
    unaryTraceState2.client = ClientStatus.CLOSED ∧
    (∃ state1 b, unary_request_wake "m" unaryTraceState2 =
        UnaryWakeResult.abandoned state1 (some b) ∧ b.sendsStatus = true) ∧
    (_abort unaryTraceState2 CyStatusCode.unimplemented "d").2.isSome = true := by
  exact ⟨⟨_, rfl, rfl⟩, rfl, rfl, rfl, ⟨_, _, rfl, rfl⟩, rfl⟩

/-- C1 amended: the guard on scheduling a terminal status in `_abort` and
`_status` is the cancellation check alone — each starts a send-status batch
iff the client is not CANCELLED (setting the `statused` latch when it does),
and each is a no-op on a cancelled call; the latch itself does not prevent a
second batch. -/
theorem abort_status_cancellation_guard (state : RPCState)
    (code : CyStatusCode) (details : String)
    (serialized_response : Option String) :
    ((_abort state code details).2.isSome ↔
      state.client ≠ ClientStatus.CANCELLED) ∧
    ((_status state serialized_response).2.isSome ↔
      state.client ≠ ClientStatus.CANCELLED) ∧
    (state.client = ClientStatus.CANCELLED →
      _abort state code details = (state, none) ∧
      _status state serialized_response = (state, none)) ∧
    (state.client ≠ ClientStatus.CANCELLED →
      (_abort state code details).1.statused = true ∧
      (_status state serialized_response).1.statused = true) := by
  by_cases h : state.client = ClientStatus.CANCELLED <;>
    by_cases him : state.initial_metadata_allowed <;>
      simp [_abort, _status, h, him]

/-- C1 amended witness. -/
theorem abort_status_cancellation_guard_witness :
    ({ initialRPCState with client := ClientStatus.CANCELLED } : RPCState).client
      = ClientStatus.CANCELLED ∧
    _abort { initialRPCState with client := ClientStatus.CANCELLED }
        CyStatusCode.unknown "d" =
      ({ initialRPCState with client := ClientStatus.CANCELLED }, none) ∧
    _status { initialRPCState with client := ClientStatus.CANCELLED } none =
      ({ initialRPCState with client := ClientStatus.CANCELLED }, none) := by
  refine ⟨rfl, ?_⟩
  exact (abort_status_cancellation_guard
    { initialRPCState with client := ClientStatus.CANCELLED }
    CyStatusCode.unknown "d" none).2.2.1 rfl

end GrpcServer
